import Mathlib

/-!
Verification of the technical-indicator engine of the `wr2` repository
(`src/analysis/technical.py`, data model in `src/models/stock.py`).

Embedding conventions:
* Python floats are modelled as exact rationals (`ℚ`) wherever the source
  performs only field arithmetic on finite inputs.  The single place where an
  IEEE special value is reachable on valid data — the unguarded `rs = gain/loss`
  division inside `_calculate_rsi` — is modelled by the type `FQ`, rationals
  extended with `nan`/`±inf` following IEEE-754 semantics for the operations
  the source performs on them.
* `rolling(window).std()` involves a square root, so the Bollinger-band values
  live in `ℝ` (`Real.sqrt` of an exact rational sample variance, ddof = 1 as in
  pandas).
* Python `None` becomes `Option.none`; Python truthiness on optional floats
  (`if x:`) is `x` present and nonzero.
* A pandas operation that would raise `TypeError` (comparing `None` with a
  number) is modelled by an `Option`-valued result, `none` meaning the
  exception.
-/

set_option maxRecDepth 100000

set_option allowUnsafeReducibility true
attribute [local semireducible] Rat.add Rat.mul Rat.sub Rat.inv Rat.div

/-- TrendDirection enum from `models/stock.py`. -/
inductive TrendDirection where
  | STRONG_BULLISH
  | BULLISH
  | SIDEWAYS
  | BEARISH
  | STRONG_BEARISH
deriving DecidableEq, Repr

/-- RSISignal enum from `models/stock.py`. -/
inductive RSISignal where
  | OVERSOLD
  | NEUTRAL
  | OVERBOUGHT
deriving DecidableEq, Repr

/-- Rationals extended with the IEEE-754 special values reachable in the
source's float pipeline (`nan` from `0.0/0.0`, infinities from `x/0.0`). -/
inductive FQ where
  | nan : FQ
  | posInf : FQ
  | negInf : FQ
  | num : ℚ → FQ
deriving DecidableEq, Repr

namespace FQ

/-- IEEE addition on the extended rationals. -/
def add : FQ → FQ → FQ
  | nan, _ => nan
  | _, nan => nan
  | posInf, negInf => nan
  | negInf, posInf => nan
  | posInf, _ => posInf
  | _, posInf => posInf
  | negInf, _ => negInf
  | _, negInf => negInf
  | num a, num b => num (a + b)

/-- IEEE subtraction on the extended rationals. -/
def sub : FQ → FQ → FQ
  | nan, _ => nan
  | _, nan => nan
  | posInf, posInf => nan
  | negInf, negInf => nan
  | posInf, _ => posInf
  | negInf, _ => negInf
  | _, posInf => negInf
  | _, negInf => posInf
  | num a, num b => num (a - b)

/-- IEEE division on the extended rationals.  `0/0` is `nan`, `x/0` for
nonzero `x` is a signed infinity (the zero divisor produced by the source is
always `+0.0`), and finite/infinite is zero (signed zeros are collapsed). -/
def div : FQ → FQ → FQ
  | nan, _ => nan
  | _, nan => nan
  | posInf, posInf => nan
  | posInf, negInf => nan
  | negInf, posInf => nan
  | negInf, negInf => nan
  | posInf, num b => if b < 0 then negInf else posInf
  | negInf, num b => if b < 0 then posInf else negInf
  | num _, posInf => num 0
  | num _, negInf => num 0
  | num a, num b =>
      if b = 0 then (if a = 0 then nan else if 0 < a then posInf else negInf)
      else num (a / b)

/-- IEEE ordering test: every comparison with `nan` is `false`. -/
def lt : FQ → FQ → Bool
  | nan, _ => false
  | _, nan => false
  | posInf, _ => false
  | negInf, negInf => false
  | negInf, _ => true
  | num _, posInf => true
  | num _, negInf => false
  | num a, num b => decide (a < b)

end FQ

/-- One OHLCV row of the prepared DataFrame (`PriceData` in `models/stock.py`,
`_prepare_dataframe` in `analysis/technical.py`).  `date` is a day ordinal;
`openPrice` stands for the Python field `open`, which is a Lean keyword. -/
structure PriceRow where
  date : ℤ
  openPrice : ℚ
  high : ℚ
  low : ℚ
  close : ℚ
  volume : ℚ
deriving DecidableEq, Repr

/-- The `close` column of the DataFrame. -/
def closes (ps : List PriceRow) : List ℚ := ps.map (fun r => r.close)

/-- The `volume` column of the DataFrame. -/
def volumes (ps : List PriceRow) : List ℚ := ps.map (fun r => r.volume)

/-- The trailing `window` entries of a series (`series.tail(window)`, and the
window that `rolling(window)` aggregates at the last position). -/
def lastWindow (window : ℕ) (xs : List ℚ) : List ℚ := xs.drop (xs.length - window)

/-- `series.rolling(window=w).mean().iloc[-1]`, meaningful when
`w ≤ xs.length` (all call sites guard this). -/
def rollingMeanLast (w : ℕ) (xs : List ℚ) : ℚ := (lastWindow w xs).sum / w

/-- `series.iloc[-1]`; call sites guarantee a nonempty series (the analyzer
raises on an empty series before any indicator code runs), so the default is
never observed. -/
def lastD (xs : List ℚ) : ℚ := xs.getLast?.getD 0

/-- `series.diff()` dropping the leading `NaN` entry: element `i` is
`xs[i+1] - xs[i]`.  The dropped `NaN` is turned into `0` by the source's
`delta.where(...)` and lies outside every window the RSI computation reads
(windows end at the last element and `len ≥ rsi_period + 1`). -/
def diffs (xs : List ℚ) : List ℚ := List.zipWith (fun a b => a - b) xs.tail xs

/-- The value lines of `_calculate_rsi` (analysis/technical.py:128-129):
`rs = gain / loss` and `rsi = 100 - (100 / (1 + rs))`, in float arithmetic. -/
def rsiFromGainLoss (gain loss : ℚ) : FQ :=
  let rs := FQ.div (FQ.num gain) (FQ.num loss)
  FQ.sub (FQ.num 100) (FQ.div (FQ.num 100) (FQ.add (FQ.num 1) rs))

/-- `TechnicalAnalyzer._calculate_rsi` (analysis/technical.py:119-141).
Returns the pair `(rsi, rsi_signal)`; the rsi value is an extended rational
because `rs = gain/loss` is an unguarded float division. -/
def calculateRsi (rsi_period : ℕ) (series : List ℚ) : Option FQ × Option RSISignal :=
  if series.length < rsi_period + 1 then (none, none)
  else
    let delta := diffs series
    let gain := rollingMeanLast rsi_period (delta.map (fun d => if 0 < d then d else 0))
    let loss := rollingMeanLast rsi_period (delta.map (fun d => if d < 0 then -d else 0))
    let rsi := rsiFromGainLoss gain loss
    let rsi_signal :=
      if FQ.lt rsi (FQ.num 30) then RSISignal.OVERSOLD
      else if FQ.lt (FQ.num 70) rsi then RSISignal.OVERBOUGHT
      else RSISignal.NEUTRAL
    (some rsi, some rsi_signal)

/-- `TechnicalAnalyzer._calculate_ma` (analysis/technical.py:113-117). -/
def calculateMa (period : ℕ) (series : List ℚ) : Option ℚ :=
  if period ≤ series.length then some (rollingMeanLast period series) else none

/-- `series.ewm(span=span, adjust=False).mean()` tail recursion:
`y[i] = (1-α)·y[i-1] + α·x[i]` with `α = 2/(span+1)`. -/
def ewmAux (a : ℚ) (prev : ℚ) : List ℚ → List ℚ
  | [] => []
  | x :: rest =>
      let y := (1 - a) * prev + a * x
      y :: ewmAux a y rest

/-- `series.ewm(span=span, adjust=False).mean()`: exponential moving average
seeded with the first element (no look-ahead). -/
def ewm (span : ℕ) (xs : List ℚ) : List ℚ :=
  match xs with
  | [] => []
  | x :: rest => x :: ewmAux (2 / ((span : ℚ) + 1)) x rest

/-- `exp12 - exp26` of `_calculate_macd` as a full series. -/
def macdLine (xs : List ℚ) : List ℚ :=
  List.zipWith (fun a b => a - b) (ewm 12 xs) (ewm 26 xs)

/-- `macd_line.ewm(span=9, adjust=False).mean()` of `_calculate_macd`. -/
def signalLine (xs : List ℚ) : List ℚ := ewm 9 (macdLine xs)

/-- `macd_line - signal_line` of `_calculate_macd` as a full series. -/
def histogramLine (xs : List ℚ) : List ℚ :=
  List.zipWith (fun a b => a - b) (macdLine xs) (signalLine xs)

/-- `TechnicalAnalyzer._calculate_macd` (analysis/technical.py:143-158):
the last value of each of the three series, or three `None` below 26 points. -/
def calculateMacd (series : List ℚ) : Option ℚ × Option ℚ × Option ℚ :=
  if series.length < 26 then (none, none, none)
  else
    (some (lastD (macdLine series)), some (lastD (signalLine series)),
      some (lastD (histogramLine series)))

/-- Sample variance with `ddof = 1` (the pandas `rolling(...).std()` default)
of the trailing `period` window. -/
def sampleVarLast (period : ℕ) (xs : List ℚ) : ℚ :=
  let w := lastWindow period xs
  let m := w.sum / w.length
  (w.map (fun x => (x - m) ^ 2)).sum / ((w.length : ℚ) - 1)

/-- `series.rolling(window=period).std().iloc[-1]`: square root of the
`ddof = 1` sample variance of the trailing window (meaningful for
`2 ≤ period ≤ xs.length`, which the Bollinger call site satisfies). -/
noncomputable def rollingStdLast (period : ℕ) (xs : List ℚ) : ℝ :=
  Real.sqrt ((sampleVarLast period xs : ℚ) : ℝ)

/-- `TechnicalAnalyzer._calculate_bollinger_bands` (analysis/technical.py:160-175),
returning `(upper, middle, lower)`.  The call site uses `period = 20`,
`std_dev = 2` (the Python default arguments). -/
noncomputable def calculateBollingerBands (series : List ℚ) (period : ℕ) (std_dev : ℚ) :
    Option ℝ × Option ℝ × Option ℝ :=
  if series.length < period then (none, none, none)
  else
    let middle : ℝ := ((rollingMeanLast period series : ℚ) : ℝ)
    let std := rollingStdLast period series
    let upper := middle + std * (std_dev : ℝ)
    let lower := middle - std * (std_dev : ℝ)
    (some upper, some middle, some lower)

open Classical in
/-- The `bb_width` field of `_calculate_all_indicators` (analysis/technical.py:104):
`(bb_upper - bb_lower) / bb_middle if bb_middle else None`.  Python truthiness
tests only the middle band; when it is present the other two always are
(they come from the same tuple), so the fallthrough case is unreachable. -/
noncomputable def bbWidth : Option ℝ × Option ℝ × Option ℝ → Option ℝ
  | (some u, some m, some l) => if m = 0 then none else some ((u - l) / m)
  | (_, _, _) => none

/-- `TechnicalAnalyzer._calculate_support_resistance` (analysis/technical.py:177-187):
min and max of the trailing `lookback` closes (whole series when shorter).
The call site uses `lookback = 50`. -/
def calculateSupportResistance (df : List PriceRow) (lookback : ℕ) :
    Option ℚ × Option ℚ :=
  let recent := if df.length < lookback then closes df
    else lastWindow lookback (closes df)
  (recent.min?, recent.max?)

/-- `TechnicalAnalyzer._calculate_volume_indicators` (analysis/technical.py:189-193). -/
def calculateVolumeIndicators (volume : List ℚ) : Option ℚ :=
  if 20 ≤ volume.length then some (rollingMeanLast 20 volume) else none

/-- `TechnicalAnalyzer._determine_trend` (analysis/technical.py:195-232).
`mas` models the `ma_values` dict: `mas p` is the lookup of key `ma_p`.
Python `if not all([ma20, ma50, ma200])` is truthiness: a moving average that
is absent or exactly `0.0` makes the trend unset. -/
def determineTrend (prices : List ℚ) (mas : ℕ → Option ℚ) :
    Option TrendDirection × Option ℚ :=
  let current_price := lastD prices
  match mas 20, mas 50, mas 200 with
  | some ma20, some ma50, some ma200 =>
    if ma20 = 0 ∨ ma50 = 0 ∨ ma200 = 0 then (none, none)
    else
      let ma_aligned_up := ma50 < ma20 ∧ ma200 < ma50
      let ma_aligned_down := ma20 < ma50 ∧ ma50 < ma200
      let price_above_all := ma20 < current_price ∧ ma50 < ma20 ∧ ma200 < ma50
      let price_below_all := current_price < ma20 ∧ ma20 < ma50 ∧ ma50 < ma200
      if price_above_all ∧ ma_aligned_up then (some TrendDirection.STRONG_BULLISH, some 90)
      else if ma_aligned_up then (some TrendDirection.BULLISH, some 70)
      else if price_below_all ∧ ma_aligned_down then (some TrendDirection.STRONG_BEARISH, some 90)
      else if ma_aligned_down then (some TrendDirection.BEARISH, some 70)
      else (some TrendDirection.SIDEWAYS, some 50)
  | _, _, _ => (none, none)

/-- The two configuration entries `TechnicalAnalyzer.__init__` reads
(analysis/technical.py:15-19); every other tuning constant is a literal or a
Python default argument at its call site. -/
structure Config where
  rsi_period : ℕ
  moving_averages : List ℕ
deriving DecidableEq, Repr

/-- The configuration defaults: `rsi_period = 14`,
`moving_averages = [20, 50, 200]`. -/
def cfgDefault : Config := { rsi_period := 14, moving_averages := [20, 50, 200] }

/-- The `ma_values` dict built in `_calculate_all_indicators`
(analysis/technical.py:70-72): the key `ma_p` is present exactly for the
configured periods `p`. -/
def maValues (cfg : Config) (cls : List ℚ) (p : ℕ) : Option ℚ :=
  if p ∈ cfg.moving_averages then calculateMa p cls else none

/-- The `TechnicalIndicators` dataclass of `models/stock.py` (the fields the
analyzer populates; the stochastic fields are never written and stay `None`).
The `rsi` field is an extended rational because `_calculate_rsi` can store a
float `NaN` there. -/
structure TechnicalIndicators where
  ma_20 : Option ℚ := none
  ma_50 : Option ℚ := none
  ma_200 : Option ℚ := none
  rsi : Option FQ := none
  rsi_signal : Option RSISignal := none
  macd : Option ℚ := none
  macd_signal : Option ℚ := none
  macd_histogram : Option ℚ := none
  bb_upper : Option ℝ := none
  bb_middle : Option ℝ := none
  bb_lower : Option ℝ := none
  bb_width : Option ℝ := none
  support_level : Option ℚ := none
  resistance_level : Option ℚ := none
  volume_avg_20 : Option ℚ := none
  volume_ratio : Option ℚ := none
  trend_direction : Option TrendDirection := none
  trend_strength : Option ℚ := none

/-- `TechnicalAnalyzer._calculate_all_indicators` (analysis/technical.py:66-111). -/
noncomputable def calculateAllIndicators (cfg : Config) (df : List PriceRow) :
    TechnicalIndicators :=
  let cls := closes df
  let mas := maValues cfg cls
  let rsiPair := calculateRsi cfg.rsi_period cls
  let macdTriple := calculateMacd cls
  let bbTriple := calculateBollingerBands cls 20 2
  let srPair := calculateSupportResistance df 50
  let volume_avg := calculateVolumeIndicators (volumes df)
  let trendPair := determineTrend cls mas
  { ma_20 := mas 20
    ma_50 := mas 50
    ma_200 := mas 200
    rsi := rsiPair.1
    rsi_signal := rsiPair.2
    macd := macdTriple.1
    macd_signal := macdTriple.2.1
    macd_histogram := macdTriple.2.2
    bb_upper := bbTriple.1
    bb_middle := bbTriple.2.1
    bb_lower := bbTriple.2.2
    bb_width := bbWidth bbTriple
    support_level := srPair.1
    resistance_level := srPair.2
    volume_avg_20 := volume_avg
    volume_ratio :=
      match volume_avg with
      | some va => if va = 0 then none else some (lastD (volumes df) / va)
      | none => none
    trend_direction := trendPair.1
    trend_strength := trendPair.2 }

/-- The analyzer's per-call result (`core/base_analyzer.py` `AnalysisResult`
with the `data` dict of `TechnicalAnalyzer.analyze` flattened into the
`technical` and `latest_price` fields). -/
structure AnalysisResult where
  stock_code : String
  timestamp : String
  technical : TechnicalIndicators
  latest_price : ℚ

/-- `TechnicalAnalyzer.analyze` (analysis/technical.py:21-47).  The ambient
clock (`datetime.now().isoformat()`) and the series the data provider returned
are explicit inputs; `raise ValueError(...)` is `Except.error`. -/
noncomputable def analyze (cfg : Config) (ticker : String) (now : String)
    (price_data : List PriceRow) : Except String AnalysisResult :=
  if price_data.isEmpty then
    Except.error ("No price data available for " ++ ticker)
  else
    let indicators := calculateAllIndicators cfg price_data
    Except.ok
      { stock_code := ticker
        timestamp := now
        technical := indicators
        latest_price := lastD (closes price_data) }

/-- One entry of the signal list produced by `generate_signals`: a dict with
the keys `type`, `indicator`, `strength` and `message`. -/
structure Signal where
  type : String
  indicator : String
  strength : String
  message : String
deriving DecidableEq, Repr

/-- Python truthiness of an optional float: present and nonzero. -/
def truthy : Option ℚ → Bool
  | none => false
  | some x => decide (x ≠ 0)

/-- The RSI block of `generate_signals` (analysis/technical.py:238-252). -/
def rsiBlock (t : TechnicalIndicators) : List Signal :=
  if t.rsi_signal = some RSISignal.OVERSOLD then
    [{ type := "BUY", indicator := "RSI", strength := "MEDIUM",
       message := "RSI menunjukkan kondisi oversold, potential reversal" }]
  else if t.rsi_signal = some RSISignal.OVERBOUGHT then
    [{ type := "SELL", indicator := "RSI", strength := "MEDIUM",
       message := "RSI overbought, hati-hati koreksi" }]
  else []

/-- The BUY dict of the MACD block. -/
def macdBuySignal : Signal :=
  { type := "BUY", indicator := "MACD", strength := "WEAK",
    message := "MACD bullish crossover" }

/-- The SELL dict of the MACD block. -/
def macdSellSignal : Signal :=
  { type := "SELL", indicator := "MACD", strength := "WEAK",
    message := "MACD bearish crossover" }

/-- The MACD block of `generate_signals` (analysis/technical.py:254-269).
The outer guard is Python truthiness (`if technical.macd and
technical.macd_signal:`).  Inside it `technical.macd_histogram` is compared
with `0` whenever the short-circuiting `and` reaches it; a `None` histogram
there raises `TypeError`, modelled as result `none`. -/
def macdBlock (t : TechnicalIndicators) : Option (List Signal) :=
  if truthy t.macd ∧ truthy t.macd_signal then
    match t.macd, t.macd_signal with
    | some m, some s =>
      if s < m then
        match t.macd_histogram with
        | some h => if 0 < h then some [macdBuySignal] else some []
        | none => none
      else if m < s then
        match t.macd_histogram with
        | some h => if h < 0 then some [macdSellSignal] else some []
        | none => none
      else some []
    | _, _ => some []
  else some []

/-- The trend block of `generate_signals` (analysis/technical.py:271-285). -/
def trendBlock (t : TechnicalIndicators) : List Signal :=
  if t.trend_direction = some TrendDirection.STRONG_BULLISH then
    [{ type := "BUY", indicator := "TREND", strength := "STRONG",
       message := "Trend bullish kuat, semua moving average aligned" }]
  else if t.trend_direction = some TrendDirection.STRONG_BEARISH then
    [{ type := "SELL", indicator := "TREND", strength := "STRONG",
       message := "Trend bearish kuat, hati-hati" }]
  else []

/-- The support/resistance block of `generate_signals`
(analysis/technical.py:287-297).  The source assigns
`current_price = technical.support_level` (its own comment:
`# This should be actual price`), so `distance_to_support` is computed from
the support level itself, not from the latest close. -/
def supportBlock (t : TechnicalIndicators) : List Signal :=
  let current_price := t.support_level
  if truthy current_price ∧ truthy t.support_level then
    match current_price, t.support_level with
    | some cp, some sl =>
      let distance_to_support := (cp - sl) / sl * 100
      if distance_to_support < 2 then
        [{ type := "BUY", indicator := "SUPPORT", strength := "MEDIUM",
           message := "Mendekati support level, potential bounce" }]
      else []
    | _, _ => []
  else []

/-- `TechnicalAnalyzer.generate_signals` (analysis/technical.py:234-299):
the four rule blocks appended in source order.  The result is `none` when the
MACD block would raise `TypeError` (possible only for a hand-built indicator
set whose histogram is absent while macd and signal are truthy). -/
def generateSignals (t : TechnicalIndicators) : Option (List Signal) :=
  match macdBlock t with
  | none => none
  | some s2 => some (rsiBlock t ++ s2 ++ trendBlock t ++ supportBlock t)

section Helpers

lemma notin_of_indicator {l : List Signal} {str : String}
    (hl : ∀ sg ∈ l, Signal.indicator sg = str) (sg : Signal)
    (hne : Signal.indicator sg ≠ str) : sg ∉ l :=
  fun hx => hne (hl sg hx)

lemma lastWindow_length (w : ℕ) (xs : List ℚ) (h : w ≤ xs.length) :
    (lastWindow w xs).length = w := by
  simp only [lastWindow, List.length_drop]
  omega

lemma lastWindow_subset (w : ℕ) (xs : List ℚ) : ∀ x ∈ lastWindow w xs, x ∈ xs :=
  fun _ hx => List.drop_subset _ xs hx

lemma rollingMeanLast_nonneg (w : ℕ) (xs : List ℚ) (h : ∀ x ∈ xs, 0 ≤ x) :
    0 ≤ rollingMeanLast w xs := by
  unfold rollingMeanLast
  apply div_nonneg
  · exact List.sum_nonneg fun x hx => h x (lastWindow_subset w xs x hx)
  · exact Nat.cast_nonneg w

lemma rollingMeanLast_pos (w : ℕ) (xs : List ℚ) (hw : 0 < w) (hlen : w ≤ xs.length)
    (h : ∀ x ∈ xs, 0 < x) : 0 < rollingMeanLast w xs := by
  unfold rollingMeanLast
  apply div_pos
  · apply List.sum_pos
    · exact fun x hx => h x (lastWindow_subset w xs x hx)
    · intro hnil
      have := lastWindow_length w xs hlen
      rw [hnil] at this
      simp at this
      omega
  · exact_mod_cast hw

lemma ewmAux_length (a p : ℚ) (xs : List ℚ) : (ewmAux a p xs).length = xs.length := by
  induction xs generalizing p with
  | nil => rfl
  | cons x rest ih => simp [ewmAux, ih]

lemma ewm_length (span : ℕ) (xs : List ℚ) : (ewm span xs).length = xs.length := by
  cases xs <;> simp [ewm, ewmAux_length]

lemma macdLine_length (xs : List ℚ) : (macdLine xs).length = xs.length := by
  simp [macdLine, List.length_zipWith, ewm_length]

lemma signalLine_length (xs : List ℚ) : (signalLine xs).length = xs.length := by
  simp [signalLine, ewm_length, macdLine_length]

lemma histogramLine_length (xs : List ℚ) : (histogramLine xs).length = xs.length := by
  simp [histogramLine, List.length_zipWith, macdLine_length, signalLine_length]

lemma getD_zipWith_sub (as bs : List ℚ) (i : ℕ) (h1 : i < as.length) (h2 : i < bs.length) :
    (List.zipWith (fun a b => a - b) as bs).getD i 0 = as.getD i 0 - bs.getD i 0 := by
  simp only [List.getD_eq_getElem?_getD, List.getElem?_zipWith,
    List.getElem?_eq_getElem h1, List.getElem?_eq_getElem h2]
  rfl

lemma lastD_eq_getD (l : List ℚ) : lastD l = l.getD (l.length - 1) 0 := by
  simp [lastD, List.getLast?_eq_getElem?, List.getD_eq_getElem?_getD]

lemma closes_length (ps : List PriceRow) : (closes ps).length = ps.length := by
  simp [closes]

lemma volumes_length (ps : List PriceRow) : (volumes ps).length = ps.length := by
  simp [volumes]

@[simp] lemma calcAll_ma20 (cfg : Config) (df : List PriceRow) :
    (calculateAllIndicators cfg df).ma_20 = maValues cfg (closes df) 20 := rfl

@[simp] lemma calcAll_ma50 (cfg : Config) (df : List PriceRow) :
    (calculateAllIndicators cfg df).ma_50 = maValues cfg (closes df) 50 := rfl

@[simp] lemma calcAll_ma200 (cfg : Config) (df : List PriceRow) :
    (calculateAllIndicators cfg df).ma_200 = maValues cfg (closes df) 200 := rfl

@[simp] lemma calcAll_rsi (cfg : Config) (df : List PriceRow) :
    (calculateAllIndicators cfg df).rsi = (calculateRsi cfg.rsi_period (closes df)).1 := rfl

@[simp] lemma calcAll_rsi_signal (cfg : Config) (df : List PriceRow) :
    (calculateAllIndicators cfg df).rsi_signal =
      (calculateRsi cfg.rsi_period (closes df)).2 := rfl

@[simp] lemma calcAll_macd (cfg : Config) (df : List PriceRow) :
    (calculateAllIndicators cfg df).macd = (calculateMacd (closes df)).1 := rfl

@[simp] lemma calcAll_macd_signal (cfg : Config) (df : List PriceRow) :
    (calculateAllIndicators cfg df).macd_signal = (calculateMacd (closes df)).2.1 := rfl

@[simp] lemma calcAll_macd_histogram (cfg : Config) (df : List PriceRow) :
    (calculateAllIndicators cfg df).macd_histogram = (calculateMacd (closes df)).2.2 := rfl

@[simp] lemma calcAll_bb_upper (cfg : Config) (df : List PriceRow) :
    (calculateAllIndicators cfg df).bb_upper =
      (calculateBollingerBands (closes df) 20 2).1 := rfl

@[simp] lemma calcAll_support (cfg : Config) (df : List PriceRow) :
    (calculateAllIndicators cfg df).support_level =
      (calculateSupportResistance df 50).1 := rfl

@[simp] lemma calcAll_resistance (cfg : Config) (df : List PriceRow) :
    (calculateAllIndicators cfg df).resistance_level =
      (calculateSupportResistance df 50).2 := rfl

@[simp] lemma calcAll_volume_avg (cfg : Config) (df : List PriceRow) :
    (calculateAllIndicators cfg df).volume_avg_20 =
      calculateVolumeIndicators (volumes df) := rfl

@[simp] lemma calcAll_trend_direction (cfg : Config) (df : List PriceRow) :
    (calculateAllIndicators cfg df).trend_direction =
      (determineTrend (closes df) (maValues cfg (closes df))).1 := rfl

@[simp] lemma calcAll_trend_strength (cfg : Config) (df : List PriceRow) :
    (calculateAllIndicators cfg df).trend_strength =
      (determineTrend (closes df) (maValues cfg (closes df))).2 := rfl

lemma rsiBlock_indicator (t : TechnicalIndicators) :
    ∀ sg ∈ rsiBlock t, Signal.indicator sg = "RSI" := by
  intro sg hsg
  unfold rsiBlock at hsg
  split_ifs at hsg <;> simp_all

lemma trendBlock_indicator (t : TechnicalIndicators) :
    ∀ sg ∈ trendBlock t, Signal.indicator sg = "TREND" := by
  intro sg hsg
  unfold trendBlock at hsg
  split_ifs at hsg <;> simp_all

lemma supportBlock_indicator (t : TechnicalIndicators) :
    ∀ sg ∈ supportBlock t, Signal.indicator sg = "SUPPORT" := by
  intro sg hsg
  rcases h20 : t.support_level with _ | sl
  · simp [supportBlock, h20, truthy] at hsg
  · simp only [supportBlock, h20] at hsg
    split_ifs at hsg <;> simp_all

end Helpers

/-- Claim C9: the indicator computation is deterministic — for any two runs of
`analyze` on the identical price series (any two ambient clock readings), the
resulting `TechnicalIndicators` are identical; the clock only enters the
timestamp field, never an indicator value. -/
theorem analyze_technical_deterministic (cfg : Config) (tk n1 n2 : String)
    (ps : List PriceRow) :
    (analyze cfg tk n1 ps).map AnalysisResult.technical =
      (analyze cfg tk n2 ps).map AnalysisResult.technical := by
  unfold analyze
  split <;> rfl

/-- A two-session series whose latest close (110) is 10% above its support
level (100): the failing input for claim C1. -/
def psTwo : List PriceRow :=
  [{ date := 0, openPrice := 100, high := 100, low := 100, close := 100, volume := 1000 },
   { date := 1, openPrice := 110, high := 110, low := 110, close := 110, volume := 1000 }]

/-- Claim C1 (code bug): on `psTwo` the current price is 10% above the support
level — far outside the 2% proximity band, so the claim demands no SUPPORT
signal — yet `generate_signals` emits the BUY/SUPPORT/MEDIUM signal, because
the source computes the distance from the support level itself
(`current_price = technical.support_level`, against its own comment
`# This should be actual price`), which makes the distance always `0`. -/
theorem support_signal_ignores_current_price :
    lastD (closes psTwo) = 110 ∧
    (calculateAllIndicators cfgDefault psTwo).support_level = some 100 ∧
    2 ≤ (lastD (closes psTwo) - 100) / 100 * 100 ∧
    generateSignals (calculateAllIndicators cfgDefault psTwo) =
      some [{ type := "BUY", indicator := "SUPPORT", strength := "MEDIUM",
              message := "Mendekati support level, potential bounce" }] := by
  refine ⟨by decide, by decide, by decide, by decide⟩

/-- A flat fifteen-session series (every close equals 100): the failing input
for claim C2. -/
def psFlat15 : List PriceRow :=
  List.replicate 15
    { date := 0, openPrice := 100, high := 100, low := 100, close := 100, volume := 500 }

/-- Claim C2 (code bug): on a flat series both rolling averages of gains and
losses are `0`, `rs = 0/0` is a float `NaN`, and the source stores that `NaN`
in the `rsi` field of the indicator set (classifying it NEUTRAL through the
always-false `NaN` comparisons) instead of reporting the RSI unavailable
(`None`) as the claim and the spec's invariant require. -/
theorem rsi_flat_series_stores_nan :
    (calculateAllIndicators cfgDefault psFlat15).rsi = some FQ.nan ∧
    (calculateAllIndicators cfgDefault psFlat15).rsi_signal =
      some RSISignal.NEUTRAL := by
  refine ⟨by decide, by decide⟩

/-- Claim C10: when `macd` or `macd_signal` is present but exactly `0.0`,
Python numeric truthiness makes the guard `if technical.macd and
technical.macd_signal:` fail, so no MACD signal is emitted regardless of the
crossover conditions. -/
theorem macd_exact_zero_suppresses_signal (t : TechnicalIndicators)
    (h : t.macd = some 0 ∨ t.macd_signal = some 0) :
    (generateSignals t).isSome = true ∧
    ∀ sg ∈ (generateSignals t).getD [], Signal.indicator sg ≠ "MACD" := by
  have hblock : macdBlock t = some [] := by
    unfold macdBlock
    have hguard : ¬(truthy t.macd = true ∧ truthy t.macd_signal = true) := by
      rcases h with h | h <;> rw [h] <;> simp [truthy]
    rw [if_neg hguard]
  have hgen : generateSignals t =
      some (rsiBlock t ++ [] ++ trendBlock t ++ supportBlock t) := by
    unfold generateSignals
    rw [hblock]
  refine ⟨by rw [hgen]; rfl, ?_⟩
  rw [hgen]
  intro sg hsg
  simp only [Option.getD_some, List.append_nil, List.mem_append] at hsg
  rcases hsg with (hsg | hsg) | hsg
  · rw [rsiBlock_indicator t sg hsg]
    decide
  · rw [trendBlock_indicator t sg hsg]
    decide
  · rw [supportBlock_indicator t sg hsg]
    decide

/-- Indicator set with `macd` present but exactly zero, used as the concrete
input for claims C10 (witness) and related: `macd = 0.0` is falsy. -/
def tMacdZero : TechnicalIndicators :=
  { macd := some 0, macd_signal := some 3, macd_histogram := some 1 }

theorem macd_exact_zero_suppresses_signal_witness :
    (generateSignals tMacdZero).isSome = true :=
  (macd_exact_zero_suppresses_signal tMacdZero (Or.inl rfl)).1

/-- Indicator set with `macd = 0.0` present, `macd_signal = -1` present and a
positive histogram: the BUY crossover condition of claim C6 holds, yet the
truthiness guard suppresses every signal. -/
def tMacdZeroBuy : TechnicalIndicators :=
  { macd := some 0, macd_signal := some (-1), macd_histogram := some 1 }

/-- Claim C6 counterexample: `macd` and `macd_signal` are both present and
`macd > macd_signal` with `macd_histogram > 0` — the claim demands a BUY/WEAK
MACD signal — but `generate_signals` emits nothing at all, because the
presence test is numeric truthiness and `macd = 0.0` is falsy. -/
theorem macd_present_rule_counterexample :
    tMacdZeroBuy.macd = some 0 ∧ tMacdZeroBuy.macd_signal = some (-1) ∧
    tMacdZeroBuy.macd_histogram = some 1 ∧
    ((-1 : ℚ) < 0) ∧ ((0 : ℚ) < 1) ∧
    generateSignals tMacdZeroBuy = some [] := by
  refine ⟨rfl, rfl, rfl, by decide, by decide, by decide⟩

/-- Claim C6 (amended): for an indicator set whose `macd` and `macd_signal`
are present *and nonzero* (Python truthiness) and whose histogram is present,
the MACD rule behaves exactly as claimed: BUY/WEAK iff `macd > signal` and
`histogram > 0`, SELL/WEAK iff `macd < signal` and `histogram < 0`, and no
MACD signal otherwise. -/
theorem macd_rule_with_nonzero_presence (t : TechnicalIndicators) (m s hq : ℚ)
    (hm : t.macd = some m) (hs : t.macd_signal = some s)
    (hh : t.macd_histogram = some hq) (hm0 : m ≠ 0) (hs0 : s ≠ 0) :
    (generateSignals t).isSome = true ∧
    (macdBuySignal ∈ (generateSignals t).getD [] ↔ s < m ∧ 0 < hq) ∧
    (macdSellSignal ∈ (generateSignals t).getD [] ↔ m < s ∧ hq < 0) ∧
    (∀ sg ∈ (generateSignals t).getD [], Signal.indicator sg = "MACD" →
      sg = macdBuySignal ∨ sg = macdSellSignal) := by
  have hguard : truthy t.macd = true ∧ truthy t.macd_signal = true := by
    rw [hm, hs]
    simp [truthy, hm0, hs0]
  have hblock : macdBlock t =
      some (if s < m then (if 0 < hq then [macdBuySignal] else [])
            else if m < s then (if hq < 0 then [macdSellSignal] else [])
            else []) := by
    unfold macdBlock
    rw [if_pos hguard, hm, hs, hh]
    show (if s < m then (if 0 < hq then some [macdBuySignal] else some ([] : List Signal))
          else if m < s then (if hq < 0 then some [macdSellSignal] else some [])
          else some []) = _
    split_ifs <;> rfl
  have hgen : generateSignals t =
      some (rsiBlock t ++
        (if s < m then (if 0 < hq then [macdBuySignal] else [])
         else if m < s then (if hq < 0 then [macdSellSignal] else [])
         else []) ++ trendBlock t ++ supportBlock t) := by
    unfold generateSignals
    rw [hblock]
  have hb1 := notin_of_indicator (rsiBlock_indicator t) macdBuySignal (by decide)
  have hb2 := notin_of_indicator (trendBlock_indicator t) macdBuySignal (by decide)
  have hb3 := notin_of_indicator (supportBlock_indicator t) macdBuySignal (by decide)
  have hs1 := notin_of_indicator (rsiBlock_indicator t) macdSellSignal (by decide)
  have hs2 := notin_of_indicator (trendBlock_indicator t) macdSellSignal (by decide)
  have hs3 := notin_of_indicator (supportBlock_indicator t) macdSellSignal (by decide)
  refine ⟨by rw [hgen]; rfl, ?_, ?_, ?_⟩
  · rw [hgen]
    simp only [Option.getD_some, List.mem_append, hb1, hb2, hb3, false_or, or_false]
    split_ifs with h1 h2 h3 h4 <;>
      simp_all [macdBuySignal, macdSellSignal, lt_asymm]
  · rw [hgen]
    simp only [Option.getD_some, List.mem_append, hs1, hs2, hs3, false_or, or_false]
    split_ifs with h1 h2 h3 h4 <;>
      simp_all [macdBuySignal, macdSellSignal, lt_asymm]
  · rw [hgen]
    intro sg hsg hmacd
    simp only [Option.getD_some, List.mem_append] at hsg
    rcases hsg with ((hsg | hsg) | hsg) | hsg
    · exact absurd hmacd (by rw [rsiBlock_indicator t sg hsg]; decide)
    · split_ifs at hsg <;> simp_all
    · exact absurd hmacd (by rw [trendBlock_indicator t sg hsg]; decide)
    · exact absurd hmacd (by rw [supportBlock_indicator t sg hsg]; decide)

/-- Indicator set with nonzero macd values satisfying the BUY crossover,
concrete input for the claim C6 witness. -/
def tMacdBuy : TechnicalIndicators :=
  { macd := some 2, macd_signal := some 1, macd_histogram := some 3 }

theorem macd_rule_with_nonzero_presence_witness :
    macdBuySignal ∈ (generateSignals tMacdBuy).getD [] :=
  (macd_rule_with_nonzero_presence tMacdBuy 2 1 3 rfl rfl rfl (by decide)
      (by decide)).2.1.mpr (by constructor <;> decide)

/-- Claim C4: for every non-empty price series the analysis returns normally
(`Except.ok`), each indicator with an unmet minimum length is independently
`none` (moving averages below their window, RSI below `rsi_period + 1 = 15`,
MACD below 26, Bollinger below 20, volume average below 20) while
support/resistance are always computed, and the call errors exactly on the
empty series. -/
theorem analyze_ok_and_indicators_degrade (ps : List PriceRow) (h : ps ≠ []) :
    (analyze cfgDefault "TICKER" "NOW" ps).isOk = true ∧
    analyze cfgDefault "TICKER" "NOW" ([] : List PriceRow) =
      Except.error ("No price data available for " ++ "TICKER") ∧
    ((calculateAllIndicators cfgDefault ps).ma_20 = none ↔ ps.length < 20) ∧
    ((calculateAllIndicators cfgDefault ps).ma_50 = none ↔ ps.length < 50) ∧
    ((calculateAllIndicators cfgDefault ps).ma_200 = none ↔ ps.length < 200) ∧
    ((calculateAllIndicators cfgDefault ps).rsi = none ↔ ps.length < 15) ∧
    ((calculateAllIndicators cfgDefault ps).macd = none ↔ ps.length < 26) ∧
    ((calculateAllIndicators cfgDefault ps).macd_signal = none ↔ ps.length < 26) ∧
    ((calculateAllIndicators cfgDefault ps).macd_histogram = none ↔ ps.length < 26) ∧
    ((calculateAllIndicators cfgDefault ps).bb_upper = none ↔ ps.length < 20) ∧
    ((calculateAllIndicators cfgDefault ps).volume_avg_20 = none ↔ ps.length < 20) ∧
    (calculateAllIndicators cfgDefault ps).support_level.isSome = true ∧
    (calculateAllIndicators cfgDefault ps).resistance_level.isSome = true := by
  have hclne : closes ps ≠ [] := by
    intro hx
    exact h (by simpa [closes] using hx)
  refine ⟨?_, rfl, ?_, ?_, ?_, ?_, ?_, ?_, ?_, ?_, ?_, ?_, ?_⟩
  · simp [analyze, List.isEmpty_iff, h, Except.isOk, Except.toBool]
  · by_cases hc : ps.length < 20 <;>
      simp [maValues, calculateMa, closes_length, cfgDefault, hc]
  · by_cases hc : ps.length < 50 <;>
      simp [maValues, calculateMa, closes_length, cfgDefault, hc]
  · by_cases hc : ps.length < 200 <;>
      simp [maValues, calculateMa, closes_length, cfgDefault, hc]
  · by_cases hc : ps.length < 15 <;>
      simp [calculateRsi, closes_length, cfgDefault, hc]
  · by_cases hc : ps.length < 26 <;>
      simp [calculateMacd, closes_length, hc]
  · by_cases hc : ps.length < 26 <;>
      simp [calculateMacd, closes_length, hc]
  · by_cases hc : ps.length < 26 <;>
      simp [calculateMacd, closes_length, hc]
  · by_cases hc : ps.length < 20 <;>
      simp [calculateBollingerBands, closes_length, hc]
  · by_cases hc : ps.length < 20 <;>
      simp [calculateVolumeIndicators, volumes_length, hc]
  · rw [calcAll_support]
    unfold calculateSupportResistance
    split_ifs with hlb
    · simp [Option.isSome_iff_ne_none, List.min?_eq_none_iff, hclne]
    · have hlen : (lastWindow 50 (closes ps)).length = 50 := by
        apply lastWindow_length
        rw [closes_length]
        omega
      simp only [Option.isSome_iff_ne_none, ne_eq, List.min?_eq_none_iff]
      intro hx
      rw [hx] at hlen
      simp at hlen
  · rw [calcAll_resistance]
    unfold calculateSupportResistance
    split_ifs with hlb
    · simp [Option.isSome_iff_ne_none, List.max?_eq_none_iff, hclne]
    · have hlen : (lastWindow 50 (closes ps)).length = 50 := by
        apply lastWindow_length
        rw [closes_length]
        omega
      simp only [Option.isSome_iff_ne_none, ne_eq, List.max?_eq_none_iff]
      intro hx
      rw [hx] at hlen
      simp at hlen

/-- A one-session series, the concrete input for the claim C4 witness. -/
def psOne : List PriceRow :=
  [{ date := 0, openPrice := 4, high := 4, low := 4, close := 4, volume := 7 }]

theorem analyze_ok_and_indicators_degrade_witness :
    (analyze cfgDefault "TICKER" "NOW" psOne).isOk = true :=
  (analyze_ok_and_indicators_degrade psOne (by decide)).1

/-- Claim C7: below 26 points every MACD output is unavailable; from 26 points
on the returned triple is the last value of the macd, signal and histogram
series, the histogram equals `macd_line − signal_line` at every index of the
series (not just the last), and in particular the returned histogram value is
the returned macd minus the returned signal value. -/
theorem macd_histogram_is_difference (xs : List ℚ) :
    (xs.length < 26 → calculateMacd xs = (none, none, none)) ∧
    (26 ≤ xs.length →
      calculateMacd xs =
        (some (lastD (macdLine xs)), some (lastD (signalLine xs)),
          some (lastD (histogramLine xs))) ∧
      lastD (histogramLine xs) = lastD (macdLine xs) - lastD (signalLine xs)) ∧
    (∀ i, i < xs.length →
      (histogramLine xs).getD i 0 =
        (macdLine xs).getD i 0 - (signalLine xs).getD i 0) := by
  have hpoint : ∀ i, i < xs.length →
      (histogramLine xs).getD i 0 =
        (macdLine xs).getD i 0 - (signalLine xs).getD i 0 := by
    intro i hi
    unfold histogramLine
    exact getD_zipWith_sub _ _ i (by rw [macdLine_length]; exact hi)
      (by rw [signalLine_length]; exact hi)
  refine ⟨?_, ?_, hpoint⟩
  · intro hl
    simp [calculateMacd, hl]
  · intro hl
    refine ⟨by simp [calculateMacd, Nat.not_lt.mpr hl], ?_⟩
    have h1 : xs.length - 1 < xs.length := by omega
    rw [lastD_eq_getD, lastD_eq_getD, lastD_eq_getD, histogramLine_length,
      macdLine_length, signalLine_length]
    exact hpoint (xs.length - 1) h1

/-- A flat 26-point series, the concrete input for the claim C7 witness. -/
def flat26 : List ℚ := List.replicate 26 5

theorem macd_histogram_is_difference_witness :
    calculateMacd flat26 =
      (some (lastD (macdLine flat26)), some (lastD (signalLine flat26)),
        some (lastD (histogramLine flat26))) ∧
    lastD (histogramLine flat26) =
      lastD (macdLine flat26) - lastD (signalLine flat26) :=
  (macd_histogram_is_difference flat26).2.1 (by decide)

open Classical in
/-- Claim C8: when the Bollinger bands are computable (series at least as long
as the period) they satisfy `upper − lower = 2·k·rolling_std` and
`upper + lower = 2·middle`, the middle band is the plain simple moving average
over the same trailing window (the value `_calculate_ma` returns for that
period), and the relative width is `(upper − lower)/middle` when the middle is
nonzero and unavailable otherwise; below the period everything is
unavailable. -/
theorem bollinger_band_relations (xs : List ℚ) (period : ℕ) (k : ℚ)
    (_hp : 2 ≤ period) :
    (xs.length < period →
      calculateBollingerBands xs period k = (none, none, none) ∧
      bbWidth (calculateBollingerBands xs period k) = none) ∧
    (period ≤ xs.length →
      calculateBollingerBands xs period k =
        (some (((rollingMeanLast period xs : ℚ) : ℝ) +
            rollingStdLast period xs * ((k : ℚ) : ℝ)),
          some ((rollingMeanLast period xs : ℚ) : ℝ),
          some (((rollingMeanLast period xs : ℚ) : ℝ) -
            rollingStdLast period xs * ((k : ℚ) : ℝ))) ∧
      ((((rollingMeanLast period xs : ℚ) : ℝ) +
            rollingStdLast period xs * ((k : ℚ) : ℝ)) -
          (((rollingMeanLast period xs : ℚ) : ℝ) -
            rollingStdLast period xs * ((k : ℚ) : ℝ)) =
        2 * ((k : ℚ) : ℝ) * rollingStdLast period xs) ∧
      ((((rollingMeanLast period xs : ℚ) : ℝ) +
            rollingStdLast period xs * ((k : ℚ) : ℝ)) +
          (((rollingMeanLast period xs : ℚ) : ℝ) -
            rollingStdLast period xs * ((k : ℚ) : ℝ)) =
        2 * ((rollingMeanLast period xs : ℚ) : ℝ)) ∧
      calculateMa period xs = some (rollingMeanLast period xs) ∧
      bbWidth (calculateBollingerBands xs period k) =
        (if ((rollingMeanLast period xs : ℚ) : ℝ) = 0 then none
         else some
          ((((rollingMeanLast period xs : ℚ) : ℝ) +
              rollingStdLast period xs * ((k : ℚ) : ℝ) -
            (((rollingMeanLast period xs : ℚ) : ℝ) -
              rollingStdLast period xs * ((k : ℚ) : ℝ))) /
            ((rollingMeanLast period xs : ℚ) : ℝ)))) := by
  constructor
  · intro hl
    have hb : calculateBollingerBands xs period k = (none, none, none) := by
      simp [calculateBollingerBands, hl]
    exact ⟨hb, by rw [hb]; rfl⟩
  · intro hl
    have hb : calculateBollingerBands xs period k =
        (some (((rollingMeanLast period xs : ℚ) : ℝ) +
            rollingStdLast period xs * ((k : ℚ) : ℝ)),
          some ((rollingMeanLast period xs : ℚ) : ℝ),
          some (((rollingMeanLast period xs : ℚ) : ℝ) -
            rollingStdLast period xs * ((k : ℚ) : ℝ))) := by
      simp [calculateBollingerBands, Nat.not_lt.mpr hl]
    refine ⟨hb, by ring, by ring, by simp [calculateMa, hl], ?_⟩
    rw [hb]
    show (if ((rollingMeanLast period xs : ℚ) : ℝ) = 0 then (none : Option ℝ)
      else some
        ((((rollingMeanLast period xs : ℚ) : ℝ) +
            rollingStdLast period xs * ((k : ℚ) : ℝ) -
          (((rollingMeanLast period xs : ℚ) : ℝ) -
            rollingStdLast period xs * ((k : ℚ) : ℝ))) /
          ((rollingMeanLast period xs : ℚ) : ℝ))) = _
    rfl

/-- A flat 20-point series, the concrete input for the claim C8 witness. -/
def flat20 : List ℚ := List.replicate 20 3

open Classical in
theorem bollinger_band_relations_witness :
    (((rollingMeanLast 20 flat20 : ℚ) : ℝ) +
        rollingStdLast 20 flat20 * ((2 : ℚ) : ℝ)) -
      (((rollingMeanLast 20 flat20 : ℚ) : ℝ) -
        rollingStdLast 20 flat20 * ((2 : ℚ) : ℝ)) =
    2 * ((2 : ℚ) : ℝ) * rollingStdLast 20 flat20 :=
  (((bollinger_band_relations flat20 20 2 (by norm_num)).2 (by decide)).2).1

/-- Value analysis of the float RSI formula for nonnegative gain and loss:
either both averages vanish and the result is `NaN`, or the result is a
rational in `[0, 100]`. -/
lemma rsiFromGainLoss_cases (g l : ℚ) (hg : 0 ≤ g) (hl : 0 ≤ l) :
    (g = 0 ∧ l = 0 ∧ rsiFromGainLoss g l = FQ.nan) ∨
    (∃ r : ℚ, 0 ≤ r ∧ r ≤ 100 ∧ rsiFromGainLoss g l = FQ.num r) := by
  rcases eq_or_lt_of_le hl with hl0 | hl0
  · rcases eq_or_lt_of_le hg with hg0 | hg0
    · left
      refine ⟨hg0.symm, hl0.symm, ?_⟩
      rw [← hg0, ← hl0]
      rfl
    · right
      refine ⟨100, by norm_num, le_refl 100, ?_⟩
      unfold rsiFromGainLoss
      rw [← hl0]
      simp [FQ.div, FQ.add, FQ.sub, ne_of_gt hg0, hg0]
  · right
    have hlne : l ≠ 0 := ne_of_gt hl0
    have hq : 0 ≤ g / l := div_nonneg hg (le_of_lt hl0)
    have h1 : (0 : ℚ) < 1 + g / l := by linarith
    have h1ne : (1 : ℚ) + g / l ≠ 0 := ne_of_gt h1
    refine ⟨100 - 100 / (1 + g / l), ?_, ?_, ?_⟩
    · have hle : 100 / (1 + g / l) ≤ 100 := div_le_self (by norm_num) (by linarith)
      linarith
    · have hpos : 0 < 100 / (1 + g / l) := div_pos (by norm_num) h1
      linarith
    · unfold rsiFromGainLoss
      simp [FQ.div, FQ.add, FQ.sub, hlne, h1ne]

/-- Claim C5: whenever the RSI is computable (a finite value, not the flat
series `NaN`), it lies in `[0, 100]` and the classification is strict:
`rsi < 30` is OVERSOLD, `rsi > 70` is OVERBOUGHT, and everything in between —
including the boundaries 30 and 70 — is NEUTRAL. -/
theorem rsi_bounds_and_classification (p : ℕ) (xs : List ℚ)
    (hlen : p + 1 ≤ xs.length) (r : ℚ)
    (hr : (calculateRsi p xs).1 = some (FQ.num r)) :
    0 ≤ r ∧ r ≤ 100 ∧
    ((calculateRsi p xs).2 = some RSISignal.OVERSOLD ↔ r < 30) ∧
    ((calculateRsi p xs).2 = some RSISignal.OVERBOUGHT ↔ 70 < r) ∧
    ((calculateRsi p xs).2 = some RSISignal.NEUTRAL ↔ 30 ≤ r ∧ r ≤ 70) := by
  have hng : ¬ (xs.length < p + 1) := Nat.not_lt.mpr hlen
  obtain ⟨g, l, hg, hl, hcalc⟩ :
      ∃ g l : ℚ, 0 ≤ g ∧ 0 ≤ l ∧ calculateRsi p xs =
        (some (rsiFromGainLoss g l),
          some (if FQ.lt (rsiFromGainLoss g l) (FQ.num 30) then RSISignal.OVERSOLD
            else if FQ.lt (FQ.num 70) (rsiFromGainLoss g l) then RSISignal.OVERBOUGHT
            else RSISignal.NEUTRAL)) := by
    refine ⟨rollingMeanLast p ((diffs xs).map (fun d => if 0 < d then d else 0)),
      rollingMeanLast p ((diffs xs).map (fun d => if d < 0 then -d else 0)),
      ?_, ?_, ?_⟩
    · apply rollingMeanLast_nonneg
      intro x hx
      rcases List.mem_map.mp hx with ⟨d, _, rfl⟩
      split_ifs with hd
      · exact le_of_lt hd
      · exact le_refl 0
    · apply rollingMeanLast_nonneg
      intro x hx
      rcases List.mem_map.mp hx with ⟨d, _, rfl⟩
      split_ifs with hd
      · linarith
      · exact le_refl 0
    · simp only [calculateRsi, if_neg hng]
  rw [hcalc] at hr
  simp only [Option.some.injEq] at hr
  rcases rsiFromGainLoss_cases g l hg hl with ⟨_, _, hnan⟩ | ⟨r', h0, h100, hnum⟩
  · rw [hnan] at hr
    exact absurd hr (by simp)
  · rw [hnum] at hr
    simp only [FQ.num.injEq] at hr
    subst hr
    have hsig : (calculateRsi p xs).2 =
        some (if r' < 30 then RSISignal.OVERSOLD
          else if 70 < r' then RSISignal.OVERBOUGHT else RSISignal.NEUTRAL) := by
      rw [hcalc]
      rw [hnum]
      simp [FQ.lt]
    refine ⟨h0, h100, ?_, ?_, ?_⟩ <;> rw [hsig] <;>
      by_cases h1 : r' < 30 <;> by_cases h2 : 70 < r' <;>
      simp [h1, h2] <;> first | linarith | constructor <;> linarith

/-- A strictly rising 15-point series (all losses zero), the concrete input
for the claim C5 witness: its RSI saturates at exactly 100. -/
def rising15 : List ℚ := [0, 1, 2, 3, 4, 5, 6, 7, 8, 9, 10, 11, 12, 13, 14]

theorem rsi_bounds_and_classification_witness :
    0 ≤ (100 : ℚ) ∧ (100 : ℚ) ≤ 100 ∧
    ((calculateRsi 14 rising15).2 = some RSISignal.OVERSOLD ↔ (100 : ℚ) < 30) ∧
    ((calculateRsi 14 rising15).2 = some RSISignal.OVERBOUGHT ↔ (70 : ℚ) < 100) ∧
    ((calculateRsi 14 rising15).2 = some RSISignal.NEUTRAL ↔
      (30 ≤ (100 : ℚ) ∧ (100 : ℚ) ≤ 70)) :=
  rsi_bounds_and_classification 14 rising15 (by decide) 100 (by decide)

/-- When the 200-session moving average is absent the trend is unset
(`if not all([...])` in the source). -/
lemma determineTrend_no_ma200 (prices : List ℚ) (mas : ℕ → Option ℚ)
    (h : mas 200 = none) : determineTrend prices mas = (none, none) := by
  unfold determineTrend
  rw [h]
  cases mas 20 <;> cases mas 50 <;> rfl

/-- With all three moving averages present and nonzero, `_determine_trend` is
the five-way first-match case split of the specification, with strict
inequalities throughout. -/
lemma determineTrend_eq (prices : List ℚ) (mas : ℕ → Option ℚ) (a b c : ℚ)
    (h20 : mas 20 = some a) (h50 : mas 50 = some b) (h200 : mas 200 = some c)
    (ha : a ≠ 0) (hb : b ≠ 0) (hc : c ≠ 0) :
    determineTrend prices mas =
      (if a < lastD prices ∧ b < a ∧ c < b then
        (some TrendDirection.STRONG_BULLISH, some 90)
      else if b < a ∧ c < b then (some TrendDirection.BULLISH, some 70)
      else if lastD prices < a ∧ a < b ∧ b < c then
        (some TrendDirection.STRONG_BEARISH, some 90)
      else if a < b ∧ b < c then (some TrendDirection.BEARISH, some 70)
      else (some TrendDirection.SIDEWAYS, some 50)) := by
  unfold determineTrend
  rw [h20, h50, h200]
  show (if a = 0 ∨ b = 0 ∨ c = 0 then ((none : Option TrendDirection), (none : Option ℚ))
    else if (a < lastD prices ∧ b < a ∧ c < b) ∧ (b < a ∧ c < b) then
      (some TrendDirection.STRONG_BULLISH, some 90)
    else if b < a ∧ c < b then (some TrendDirection.BULLISH, some 70)
    else if (lastD prices < a ∧ a < b ∧ b < c) ∧ (a < b ∧ b < c) then
      (some TrendDirection.STRONG_BEARISH, some 90)
    else if a < b ∧ b < c then (some TrendDirection.BEARISH, some 70)
    else (some TrendDirection.SIDEWAYS, some 50)) = _
  rw [if_neg (by simp [ha, hb, hc])]
  have e1 : ((a < lastD prices ∧ b < a ∧ c < b) ∧ (b < a ∧ c < b)) ↔
      (a < lastD prices ∧ b < a ∧ c < b) := by tauto
  have e3 : ((lastD prices < a ∧ a < b ∧ b < c) ∧ (a < b ∧ b < c)) ↔
      (lastD prices < a ∧ a < b ∧ b < c) := by tauto
  simp only [e1, e3]

/-- Claim C3: with positive closes (the data-model invariant on prices) and
the default configuration, the trend is unset when any of the three moving
averages is unavailable (series shorter than 200), and otherwise is decided
by the first matching case of the strict five-way cascade — so a series
satisfying both the STRONG_BULLISH and BULLISH conditions is classified
STRONG_BULLISH, and any equality among the compared values falls through to
SIDEWAYS. -/
theorem trend_classification_cases (ps : List PriceRow)
    (hpos : ∀ row ∈ ps, 0 < row.close) :
    (ps.length < 200 →
      (calculateAllIndicators cfgDefault ps).trend_direction = none ∧
      (calculateAllIndicators cfgDefault ps).trend_strength = none) ∧
    (200 ≤ ps.length →
      ((calculateAllIndicators cfgDefault ps).trend_direction,
        (calculateAllIndicators cfgDefault ps).trend_strength) =
      (if rollingMeanLast 20 (closes ps) < lastD (closes ps) ∧
          rollingMeanLast 50 (closes ps) < rollingMeanLast 20 (closes ps) ∧
          rollingMeanLast 200 (closes ps) < rollingMeanLast 50 (closes ps) then
        (some TrendDirection.STRONG_BULLISH, some 90)
      else if rollingMeanLast 50 (closes ps) < rollingMeanLast 20 (closes ps) ∧
          rollingMeanLast 200 (closes ps) < rollingMeanLast 50 (closes ps) then
        (some TrendDirection.BULLISH, some 70)
      else if lastD (closes ps) < rollingMeanLast 20 (closes ps) ∧
          rollingMeanLast 20 (closes ps) < rollingMeanLast 50 (closes ps) ∧
          rollingMeanLast 50 (closes ps) < rollingMeanLast 200 (closes ps) then
        (some TrendDirection.STRONG_BEARISH, some 90)
      else if rollingMeanLast 20 (closes ps) < rollingMeanLast 50 (closes ps) ∧
          rollingMeanLast 50 (closes ps) < rollingMeanLast 200 (closes ps) then
        (some TrendDirection.BEARISH, some 70)
      else (some TrendDirection.SIDEWAYS, some 50))) := by
  have hclpos : ∀ x ∈ closes ps, 0 < x := by
    intro x hx
    rcases List.mem_map.mp hx with ⟨row, hrow, rfl⟩
    exact hpos row hrow
  constructor
  · intro hl
    have h200 : maValues cfgDefault (closes ps) 200 = none := by
      simp [maValues, calculateMa, closes_length, cfgDefault]
      omega
    have hdt := determineTrend_no_ma200 (closes ps)
      (maValues cfgDefault (closes ps)) h200
    constructor
    · rw [calcAll_trend_direction, hdt]
    · rw [calcAll_trend_strength, hdt]
  · intro hl
    have h20 : maValues cfgDefault (closes ps) 20 =
        some (rollingMeanLast 20 (closes ps)) := by
      simp [maValues, calculateMa, closes_length, cfgDefault]
      omega
    have h50 : maValues cfgDefault (closes ps) 50 =
        some (rollingMeanLast 50 (closes ps)) := by
      simp [maValues, calculateMa, closes_length, cfgDefault]
      omega
    have h200 : maValues cfgDefault (closes ps) 200 =
        some (rollingMeanLast 200 (closes ps)) := by
      simp [maValues, calculateMa, closes_length, cfgDefault]
      omega
    have ha : 0 < rollingMeanLast 20 (closes ps) :=
      rollingMeanLast_pos 20 (closes ps) (by norm_num)
        (by rw [closes_length]; omega) hclpos
    have hb : 0 < rollingMeanLast 50 (closes ps) :=
      rollingMeanLast_pos 50 (closes ps) (by norm_num)
        (by rw [closes_length]; omega) hclpos
    have hc : 0 < rollingMeanLast 200 (closes ps) :=
      rollingMeanLast_pos 200 (closes ps) (by norm_num)
        (by rw [closes_length]; omega) hclpos
    rw [calcAll_trend_direction, calcAll_trend_strength, Prod.mk.eta,
      determineTrend_eq (closes ps) (maValues cfgDefault (closes ps)) _ _ _
        h20 h50 h200 (ne_of_gt ha) (ne_of_gt hb) (ne_of_gt hc)]

/-- A flat positive 200-session series, the concrete input for the claim C3
witness: every compared value is equal, so the cascade falls through to
SIDEWAYS with strength 50. -/
def psFlat200 : List PriceRow :=
  List.replicate 200
    { date := 0, openPrice := 5, high := 5, low := 5, close := 5, volume := 10 }

theorem trend_classification_cases_witness :
    ((calculateAllIndicators cfgDefault psFlat200).trend_direction,
      (calculateAllIndicators cfgDefault psFlat200).trend_strength) =
    (some TrendDirection.SIDEWAYS, some 50) := by
  have h := (trend_classification_cases psFlat200 (by decide)).2 (by decide)
  rw [h]
  decide
